import Mathlib

/-
  Verification of the contact-submission pipeline in src/backend/server.js.

  The JavaScript string functions are embedded over List Char (one entry per
  UTF-16 code unit in the ranges the claims exercise).  Bounded scans are
  written with an explicit fuel argument equal to the input length so that
  every definition is structurally recursive and kernel-evaluable; the fuel
  is always sufficient because every recursive step consumes at least one
  character.  The fetch call of the notifier is abstracted by an oracle
  giving the outcome of each attempt (HTTP ok, application-level rejection
  with a description, or a thrown error with its network classification);
  file-system writes are modelled as always succeeding, and the stored file
  is either a readable list of records or unreadable/unparsable.
-/

namespace Portfolio

/-- Code points removed by JavaScript `String.prototype.trim`
(ECMA-262 WhiteSpace and LineTerminator). -/
def jsWhitespace (c : Char) : Bool :=
  c == ' ' || c == '\t' || c == '\n' || c == '\r' ||
  c == '\x0b' || c == '\x0c' || c == '\u00A0' || c == '\u1680' ||
  (decide (0x2000 ≤ c.toNat) && decide (c.toNat ≤ 0x200A)) ||
  c == '\u2028' || c == '\u2029' || c == '\u202F' || c == '\u205F' ||
  c == '\u3000' || c == '\uFEFF'

/-- JavaScript `str.trim()`. -/
def jsTrim (l : List Char) : List Char :=
  ((l.dropWhile jsWhitespace).reverse.dropWhile jsWhitespace).reverse

/-- Regex word character `\w`, i.e. `[A-Za-z0-9_]`. -/
def wordChar (c : Char) : Bool :=
  c.isAlpha || c.isDigit || c == '_'

/-- The character class removed by `sanitizeInput`:
`[<>\"\'`;(){}]` from server.js line 83. -/
def dangerousChar (c : Char) : Bool :=
  c == '<' || c == '>' || c == '\x22' || c == '\x27' || c == '\x60' ||
  c == ';' || c == '(' || c == ')' || c == '\x7b' || c == '\x7d'

/-- Skip to just past the next `>`; `none` when there is none.  This is the
remainder after the leftmost match of `<[^>]*>` anchored at a `<`. -/
def afterGt : List Char → Option (List Char)
  | [] => none
  | c :: rest => if c == '>' then some rest else afterGt rest

/-- Global replace of `/<[^>]*>/g` by the empty string (fuelled scan). -/
def removeTagsGo : Nat → List Char → List Char
  | 0, l => l
  | _ + 1, [] => []
  | fuel + 1, c :: rest =>
    if c == '<' then
      match afterGt rest with
      | some rest2 => removeTagsGo fuel rest2
      | none => c :: removeTagsGo fuel rest
    else c :: removeTagsGo fuel rest

/-- `str.replace(/<[^>]*>/g, '')` from server.js line 82. -/
def removeTags (l : List Char) : List Char :=
  removeTagsGo l.length l

/-- Case-insensitive literal prefix strip: the remainder after `pat` if `l`
starts (case-insensitively) with `pat`, otherwise `none`. -/
def stripPrefixCI : List Char → List Char → Option (List Char)
  | [], l => some l
  | _ :: _, [] => none
  | p :: ps, c :: cs => if c.toLower == p.toLower then stripPrefixCI ps cs else none

/-- Global case-insensitive replace of the literal pattern `p0 :: pat` by the
empty string (fuelled scan); models `str.replace(/pat/gi, '')`. -/
def removeAllCIGo (p0 : Char) (pat : List Char) : Nat → List Char → List Char
  | 0, l => l
  | _ + 1, [] => []
  | fuel + 1, c :: rest =>
    match stripPrefixCI (p0 :: pat) (c :: rest) with
    | some rest2 => removeAllCIGo p0 pat fuel rest2
    | none => c :: removeAllCIGo p0 pat fuel rest

def removeAllCI (p0 : Char) (pat : List Char) (l : List Char) : List Char :=
  removeAllCIGo p0 pat l.length l

/-- Tail of the literal `javascript:`. -/
def jsTail : List Char := ['a', 'v', 'a', 's', 'c', 'r', 'i', 'p', 't', ':']

/-- Tail of the literal `data:`. -/
def dataTail : List Char := ['a', 't', 'a', ':']

/-- `str.replace(/javascript:/gi, '')` from server.js line 84. -/
def removeJS (l : List Char) : List Char := removeAllCI 'j' jsTail l

/-- `str.replace(/data:/gi, '')` from server.js line 86. -/
def removeData (l : List Char) : List Char := removeAllCI 'd' dataTail l

/-- After `on` and one word character: consume the rest of the maximal word
run, then require `=`; returns the remainder after the `=`. -/
def afterWordRun : List Char → Option (List Char)
  | [] => none
  | c :: rest =>
    if wordChar c then afterWordRun rest
    else if c == '=' then some rest else none

/-- Leftmost match of `/on\w+=/i` anchored at the head of the list: returns
the remainder after the match, or `none`.  Since `=` is not a word
character, the greedy `\w+` admits no other successful backtracking. -/
def handlerStrip : List Char → Option (List Char)
  | c1 :: c2 :: c3 :: rest =>
    if c1.toLower == 'o' && c2.toLower == 'n' && wordChar c3 then
      afterWordRun rest
    else none
  | _ => none

/-- Global replace of `/on\w+=/gi` by the empty string (fuelled scan). -/
def removeHandlersGo : Nat → List Char → List Char
  | 0, l => l
  | _ + 1, [] => []
  | fuel + 1, c :: rest =>
    match handlerStrip (c :: rest) with
    | some rest2 => removeHandlersGo fuel rest2
    | none => c :: removeHandlersGo fuel rest

/-- `str.replace(/on\w+=/gi, '')` from server.js line 85. -/
def removeHandlers (l : List Char) : List Char :=
  removeHandlersGo l.length l

/-- `sanitizeInput` from server.js lines 76-87: trim, truncate to 1000,
strip HTML-tag spans, strip the dangerous character class, strip
`javascript:`, strip `on<word>=`, strip `data:`.  A falsy (empty) input
returns the empty string. -/
def sanitizeInput (s : String) : String :=
  if s == "" then ""
  else
    String.mk
      (removeData
        (removeHandlers
          (removeJS
            (List.filter (fun c => !dangerousChar c)
              (removeTags ((jsTrim s.data).take 1000))))))

/-- Character class `[a-zA-Z0-9._%+-]` of the email local part. -/
def localChar (c : Char) : Bool :=
  c.isAlpha || c.isDigit || c == '.' || c == '_' || c == '%' || c == '+' || c == '-'

/-- Character class `[a-zA-Z0-9.-]` of the email domain part. -/
def domainChar (c : Char) : Bool :=
  c.isAlpha || c.isDigit || c == '.' || c == '-'

/-- `[a-zA-Z]{2,}` anchored to the end of the string. -/
def tailAlpha2 (l : List Char) : Bool :=
  decide (2 ≤ l.length) && l.all Char.isAlpha

/-- Matches `([a-zA-Z0-9.-])*\.[a-zA-Z]{2,}$` given that at least one domain
character has already been consumed: at each `.` either close with an
alphabetic tail of length at least two, or keep it inside the `+` group. -/
def domRest : List Char → Bool
  | [] => false
  | c :: rest => (c == '.' && tailAlpha2 rest) || (domainChar c && domRest rest)

/-- Matches `[a-zA-Z0-9.-]+\.[a-zA-Z]{2,}$`. -/
def domainOk : List Char → Bool
  | [] => false
  | c :: rest => domainChar c && domRest rest

/-- After at least one local character: consume more local characters up to
the mandatory `@`, then match the domain.  `@` is in neither character
class, so the split is deterministic. -/
def localThenDomain : List Char → Bool
  | [] => false
  | c :: rest => if c == '@' then domainOk rest else localChar c && localThenDomain rest

/-- Full-string match of `/^[a-zA-Z0-9._%+-]+@[a-zA-Z0-9.-]+\.[a-zA-Z]{2,}$/`. -/
def emailMatch : List Char → Bool
  | [] => false
  | c :: rest => localChar c && localThenDomain rest

/-- `isValidEmail` from server.js lines 90-93: the regex above plus a
254-character bound. -/
def isValidEmail (email : String) : Bool :=
  emailMatch email.data && decide (email.data.length ≤ 254)

/-- The keyword blacklist of the first spam pattern. -/
def spamKeywords : List (List Char) :=
  ["viagra", "casino", "lottery", "winner", "prize", "click here", "buy now"].map
    String.data

/-- Case-insensitive match of a keyword at the head of the list, requiring a
trailing word boundary (every keyword ends in a word character). -/
def kwFrom : List Char → List Char → Bool
  | [], [] => true
  | [], c :: _ => !wordChar c
  | _ :: _, [] => false
  | k :: ks, c :: cs => c.toLower == k.toLower && kwFrom ks cs

/-- Keyword match at the current position with the preceding character
`prev` (`none` at the start of the string); the leading word boundary holds
when `prev` is absent or a non-word character. -/
def kwAt (kw : List Char) (prev : Option Char) (l : List Char) : Bool :=
  (match prev with
   | none => true
   | some p => !wordChar p) && kwFrom kw l

/-- Scan for `/\b(viagra|casino|lottery|winner|prize|click here|buy now)\b/i`. -/
def kwScan (prev : Option Char) : List Char → Bool
  | [] => false
  | c :: rest => spamKeywords.any (fun kw => kwAt kw prev (c :: rest)) || kwScan (some c) rest

/-- One occurrence of `http[s]?:\/\/` (case-insensitive) at the head of the
list; returns the remainder.  After `http`, the optional `s` and the `:` are
distinct characters, so the match is deterministic. -/
def schemeStrip (l : List Char) : Option (List Char) :=
  match stripPrefixCI ['h', 't', 't', 'p'] l with
  | none => none
  | some (c :: rest) =>
    if c.toLower == 's' then stripPrefixCI [':', '/', '/'] rest
    else stripPrefixCI [':', '/', '/'] (c :: rest)
  | some [] => none

/-- Scan for `/(http[s]?:\/\/){2,}/i`: two (hence at least two) consecutive
scheme tokens starting at some position. -/
def twoSchemes : List Char → Bool
  | [] => false
  | c :: rest =>
    (match schemeStrip (c :: rest) with
     | some r => (schemeStrip r).isSome
     | none => false) || twoSchemes rest

/-- Line terminators, which `.` does not match. -/
def lineTerm (c : Char) : Bool :=
  c == '\n' || c == '\r' || c == '\u2028' || c == '\u2029'

/-- Length of the run of characters case-insensitively equal to `c` (the
case-insensitive backreference `\1` of the `i` flag). -/
def repeatRun (c : Char) : List Char → Nat
  | [] => 0
  | d :: rest => if d.toLower == c.toLower then repeatRun c rest + 1 else 0

/-- Scan for `/(.)\1{10,}/i`: some non-line-terminator character followed by
at least ten case-insensitive copies of itself. -/
def elevenRepeat : List Char → Bool
  | [] => false
  | c :: rest => (!lineTerm c && decide (10 ≤ repeatRun c rest)) || elevenRepeat rest

/-- `isSpam` from server.js lines 96-105 applied to the sanitized fields:
the three patterns are tested against `${name} ${subject} ${message}`. -/
def isSpam (name subject message : String) : Bool :=
  let content := (name ++ " " ++ subject ++ " " ++ message).data
  kwScan none content || twoSchemes content || elevenRepeat content

/-- Result object returned by `sendToTelegram`.  Fields that a return path
of the source leaves absent are modelled by their JavaScript-falsy
defaults: `error := none` and `isNetworkError := false`. -/
structure TelegramResult where
  success : Bool
  error : Option String := none
  isNetworkError : Bool := false
  deriving DecidableEq

/-- Outcome of one fetch attempt against the Telegram API, as observed by
the code: the parsed body has `ok: true`; or `ok` is falsy and a
`description` accompanies it; or the attempt throws, and the thrown error
is classified by name/code as a network error or not (server.js lines
149-154). -/
inductive AttemptOutcome where
  | ok : AttemptOutcome
  | rejected (description : String) : AttemptOutcome
  | exn (message : String) (isNetworkError : Bool) : AttemptOutcome
  deriving DecidableEq

/-- Observable trace of one `sendToTelegram` call: the returned result, how
many fetch attempts were made, and the backoff delays (milliseconds passed
to `setTimeout`) in order. -/
structure SendTrace where
  result : TelegramResult
  attemptsMade : Nat
  delays : List Nat
  deriving DecidableEq

/-- The retry loop of `sendToTelegram` (server.js lines 126-175).  `attempt`
is the 1-based loop counter; the fuel counts the remaining iterations of
`for (attempt = 1; attempt <= retries; attempt++)`, so the top-level call
uses fuel = retries.  On a thrown error: retry after `2^(attempt-1)` seconds
when it is network-classified and attempts remain; return the
network-labelled failure on the last attempt; otherwise fall through to the
next iteration with no delay.  Exhausted fuel is the loop exit of line 176. -/
def sendLoop (oracle : Nat → AttemptOutcome) (retries : Nat) : Nat → Nat → SendTrace
  | 0, _ => ⟨⟨false, some "Unknown error", false⟩, 0, []⟩
  | fuel + 1, attempt =>
    match oracle attempt with
    | .ok => ⟨⟨true, none, false⟩, 1, []⟩
    | .rejected d => ⟨⟨false, some d, false⟩, 1, []⟩
    | .exn m isNet =>
      if isNet && decide (attempt < retries) then
        let t := sendLoop oracle retries fuel (attempt + 1)
        ⟨t.result, t.attemptsMade + 1, 2 ^ (attempt - 1) * 1000 :: t.delays⟩
      else if attempt == retries then
        ⟨⟨false, some ("Network error after " ++ toString retries ++ " attempts: " ++ m),
          true⟩, 1, []⟩
      else
        let t := sendLoop oracle retries fuel (attempt + 1)
        ⟨t.result, t.attemptsMade + 1, t.delays⟩

/-- `sendToTelegram` from server.js line 117; every call site uses the
default `retries = 3`. -/
def sendToTelegram (oracle : Nat → AttemptOutcome) (retries : Nat) : SendTrace :=
  sendLoop oracle retries retries 1

/-- A stored contact message (the JSON records of data/messages.json).
`telegramError` and `telegramRetryAt` are absent until a delivery attempt
or resend writes them; absence is modelled as `none`. -/
structure Message where
  id : Nat
  name : String
  email : String
  subject : String
  message : String
  timestamp : String
  ip : String
  read : Bool
  telegramSent : Bool
  telegramError : Option String := none
  telegramRetryAt : Option String := none
  deriving DecidableEq

/-- State of the messages file: either it reads and parses as a JSON array
of records, or reading/parsing throws. -/
inductive FileContent where
  | readable (messages : List Message) : FileContent
  | unreadable : FileContent
  deriving DecidableEq

/-- `readMessages` from server.js lines 219-226: parse the file, and on any
read or parse error return the empty array. -/
def readMessages : FileContent → List Message
  | .readable messages => messages
  | .unreadable => []

/-- Placeholder value of `TELEGRAM_BOT_TOKEN` (server.js line 112). -/
def botTokenSentinel : String := "YOUR_BOT_TOKEN_HERE"

/-- Placeholder value of `TELEGRAM_CHAT_ID` (server.js line 113). -/
def chatIdSentinel : String := "YOUR_CHAT_ID_HERE"

/-- The two Telegram credentials, as configured by environment variables or
left at their placeholder defaults. -/
structure TelegramConfig where
  botToken : String
  chatId : String
  deriving DecidableEq

/-- The guard of server.js lines 309-312: notify only when both credentials
differ from their placeholders. -/
def telegramConfigured (cfg : TelegramConfig) : Bool :=
  cfg.botToken != botTokenSentinel && cfg.chatId != chatIdSentinel

/-- JavaScript `x || null` on a nullable string: the empty string collapses
to null. -/
def jsOrNull : Option String → Option String
  | none => none
  | some s => if s == "" then none else some s

/-- `Array.prototype.findIndex` (with `-1` mapped to `none`). -/
def findIndex (p : Message → Bool) : List Message → Option Nat
  | [] => none
  | m :: rest => if p m then some 0 else (findIndex p rest).map (· + 1)

/-- `Array.prototype.find` (with `undefined` mapped to `none`). -/
def findMsg (p : Message → Bool) : List Message → Option Message
  | [] => none
  | m :: rest => if p m then some m else findMsg p rest

/-- In-place update of the element at an index (out-of-range is a no-op,
matching the guarded JavaScript mutation). -/
def updateAt (f : Message → Message) : Nat → List Message → List Message
  | _, [] => []
  | 0, m :: rest => f m :: rest
  | i + 1, m :: rest => m :: updateAt f i rest

/-- `Array.prototype.splice(i, 1)`. -/
def removeAt : Nat → List Message → List Message
  | _, [] => []
  | 0, _ :: rest => rest
  | i + 1, m :: rest => m :: removeAt i rest

/-- `m.id === parseInt(req.params.id)`: the parse result is an integer or
NaN (`none`), and NaN compares unequal to every id. -/
def idMatches (idParam : Option Int) (id : Nat) : Bool :=
  match idParam with
  | none => false
  | some v => (id : Int) == v

/-- Raw request body of `POST /api/contact`; an absent field behaves as the
empty string (it sanitizes to the empty string either way). -/
structure ContactRequest where
  name : String
  email : String
  subject : String
  message : String
  deriving DecidableEq

/-- Ambient state of one contact submission: credentials, the Telegram
attempt oracle, `Date.now()`, `new Date().toISOString()` and the client
address. -/
structure ContactEnv where
  cfg : TelegramConfig
  oracle : Nat → AttemptOutcome
  nowMs : Nat
  nowISO : String
  ip : String

/-- JSON body and status of the response to `POST /api/contact`; fields the
source omits on a path are `none`. -/
structure ContactResponse where
  status : Nat
  success : Bool
  message : Option String := none
  error : Option String := none
  telegramNotified : Option Bool := none
  deriving DecidableEq

/-- Everything observable about one submission: the response, the resulting
file state, whether `sendToTelegram` was invoked, and the final value of
the handler's `telegramResult` variable (`none` when the handler returned
before that variable exists). -/
structure ContactOutcome where
  response : ContactResponse
  store : FileContent
  notifierInvoked : Bool
  telegramResult : Option TelegramResult
  deriving DecidableEq

/-- The status mutation of server.js lines 319-320 / 377-378. -/
def setTelegramStatus (t : TelegramResult) (m : Message) : Message :=
  { m with telegramSent := t.success, telegramError := jsOrNull t.error }

/-- The `POST /api/contact` handler, server.js lines 238-338: sanitize,
validate (required fields, name length, message length, email), spam
short-circuit with a deceptive success response, store the record, then
best-effort Telegram delivery followed by a status update of the stored
record, and a success response carrying the advisory `telegramNotified`. -/
def contactHandler (env : ContactEnv) (body : ContactRequest) (store : FileContent) :
    ContactOutcome :=
  let name := sanitizeInput body.name
  let email := sanitizeInput body.email
  let subject := sanitizeInput body.subject
  let message := sanitizeInput body.message
  if name = "" ∨ email = "" ∨ message = "" then
    ⟨⟨400, false, none, some "Name, email, and message are required.", none⟩,
      store, false, none⟩
  else if name.length < 2 ∨ name.length > 100 then
    ⟨⟨400, false, none, some "Name must be between 2 and 100 characters.", none⟩,
      store, false, none⟩
  else if message.length < 10 ∨ message.length > 1000 then
    ⟨⟨400, false, none, some "Message must be between 10 and 1000 characters.", none⟩,
      store, false, none⟩
  else if isValidEmail email = false then
    ⟨⟨400, false, none, some "Please provide a valid email address.", none⟩,
      store, false, none⟩
  else if isSpam name subject message = true then
    ⟨⟨201, true, some "Thank you! Your message has been received.", none, none⟩,
      store, false, none⟩
  else
    let newMessage : Message :=
      { id := env.nowMs, name := name, email := email,
        subject := if subject = "" then "(No subject)" else subject,
        message := message, timestamp := env.nowISO, ip := env.ip,
        read := false, telegramSent := false }
    let messages := readMessages store
    let store1 := FileContent.readable (messages ++ [newMessage])
    if telegramConfigured env.cfg then
      let t := sendToTelegram env.oracle 3
      let updated := readMessages store1
      let store2 :=
        match findIndex (fun m => m.id == newMessage.id) updated with
        | some i => FileContent.readable (updateAt (setTelegramStatus t.result) i updated)
        | none => store1
      ⟨⟨201, true, some "Thank you! Your message has been received.", none,
          some t.result.success⟩,
        store2, true, some t.result⟩
    else
      ⟨⟨201, true, some "Thank you! Your message has been received.", none, some false⟩,
        store1, false, some ⟨false, some "Not configured", false⟩⟩

/-- Response of `GET /api/messages/:id` (server.js lines 391-403). -/
structure GetOutcome where
  status : Nat
  success : Bool
  error : Option String := none
  found : Option Message := none
  deriving DecidableEq

def getHandler (idParam : Option Int) (store : FileContent) : GetOutcome :=
  match findMsg (fun m => idMatches idParam m.id) (readMessages store) with
  | none => ⟨404, false, some "Message not found", none⟩
  | some m => ⟨200, true, none, some m⟩

/-- Response and resulting file state of `DELETE /api/messages/:id`
(server.js lines 406-421). -/
structure DeleteOutcome where
  status : Nat
  success : Bool
  error : Option String := none
  message : Option String := none
  store : FileContent
  deriving DecidableEq

def deleteHandler (idParam : Option Int) (store : FileContent) : DeleteOutcome :=
  let messages := readMessages store
  match findIndex (fun m => idMatches idParam m.id) messages with
  | none => ⟨404, false, some "Message not found", none, store⟩
  | some i => ⟨200, true, none, some "Message deleted", .readable (removeAt i messages)⟩

/-- Response of `GET /api/messages` (server.js lines 341-348). -/
structure ListOutcome where
  success : Bool
  count : Nat
  messages : List Message
  deriving DecidableEq

def listHandler (store : FileContent) : ListOutcome :=
  let messages := readMessages store
  ⟨true, messages.length, messages.reverse⟩

/-- Response, resulting file state and notifier use of
`POST /api/messages/:id/resend-telegram` (server.js lines 351-388). -/
structure ResendOutcome where
  status : Nat
  success : Bool
  error : Option String := none
  message : Option String := none
  store : FileContent
  notifierInvoked : Bool
  deriving DecidableEq

def resendHandler (cfg : TelegramConfig) (oracle : Nat → AttemptOutcome) (nowISO : String)
    (idParam : Option Int) (store : FileContent) : ResendOutcome :=
  let messages := readMessages store
  match findIndex (fun m => idMatches idParam m.id) messages with
  | none => ⟨404, false, some "Message not found", none, store, false⟩
  | some i =>
    if cfg.botToken = botTokenSentinel ∨ cfg.chatId = chatIdSentinel then
      ⟨400, false, some "Telegram bot not configured", none, store, false⟩
    else
      let t := sendToTelegram oracle 3
      let messages2 := updateAt
        (fun m => { m with telegramSent := t.result.success,
                           telegramError := jsOrNull t.result.error,
                           telegramRetryAt := some nowISO }) i messages
      ⟨200, t.result.success, none,
        some (if t.result.success then "Message sent to Telegram successfully"
              else "Failed to send: " ++ (t.result.error.getD "undefined")),
        .readable messages2, true⟩

/-- No occurrence of the case-insensitive literal `p0 :: pat` at any
position of the list. -/
def noOccurCI (p0 : Char) (pat : List Char) : List Char → Bool
  | [] => true
  | c :: rest => (stripPrefixCI (p0 :: pat) (c :: rest)).isNone && noOccurCI p0 pat rest

/-- No match of `/on\w+=/i` at any position of the list. -/
def noHandlerOccur : List Char → Bool
  | [] => true
  | c :: rest => (handlerStrip (c :: rest)).isNone && noHandlerOccur rest

theorem updateAt_length (f : Message → Message) :
    ∀ (i : Nat) (l : List Message), (updateAt f i l).length = l.length := by
  intro i l
  induction l generalizing i with
  | nil => cases i <;> rfl
  | cons m rest ih => cases i with
    | zero => rfl
    | succ j => simpa [updateAt] using ih j

theorem findIndex_eq_none {p : Message → Bool} {l : List Message}
    (h : ∀ m ∈ l, p m = false) : findIndex p l = none := by
  induction l with
  | nil => rfl
  | cons m rest ih =>
    have hm : p m = false := h m (List.mem_cons_self m rest)
    have hrest : findIndex p rest = none := ih fun x hx => h x (List.mem_cons_of_mem m hx)
    simp [findIndex, hm, hrest]

theorem findMsg_eq_none {p : Message → Bool} {l : List Message}
    (h : ∀ m ∈ l, p m = false) : findMsg p l = none := by
  induction l with
  | nil => rfl
  | cons m rest ih =>
    have hm : p m = false := h m (List.mem_cons_self m rest)
    simp [findMsg, hm, ih fun x hx => h x (List.mem_cons_of_mem m hx)]

theorem findIndex_isSome {p : Message → Bool} {l : List Message}
    (h : ∃ m ∈ l, p m = true) : (findIndex p l).isSome = true := by
  induction l with
  | nil => simp at h
  | cons m rest ih =>
    by_cases hm : p m
    · simp [findIndex, hm]
    · rcases h with ⟨x, hx, hpx⟩
      rcases List.mem_cons.mp hx with rfl | hx2
      · exact absurd hpx hm
      · have := ih ⟨x, hx2, hpx⟩
        rcases Option.isSome_iff_exists.mp this with ⟨i, hi⟩
        simp [findIndex, hm, hi]

theorem sendLoop_attempts_le (oracle : Nat → AttemptOutcome) (retries : Nat) :
    ∀ (fuel attempt : Nat), (sendLoop oracle retries fuel attempt).attemptsMade ≤ fuel := by
  intro fuel
  induction fuel with
  | zero => intro attempt; simp [sendLoop]
  | succ n ih =>
    intro attempt
    simp only [sendLoop]
    cases oracle attempt with
    | ok => simp
    | rejected d => simp
    | exn m isNet =>
      by_cases h1 : (isNet && decide (attempt < retries)) = true
      · simpa [h1] using Nat.succ_le_succ (ih (attempt + 1))
      · by_cases h2 : (attempt == retries) = true
        · simp [h1, h2]
        · simpa [h1, h2] using Nat.succ_le_succ (ih (attempt + 1))

theorem sendLoop_result_shape (oracle : Nat → AttemptOutcome) (retries : Nat) :
    ∀ (fuel attempt : Nat),
      ((sendLoop oracle retries fuel attempt).result.success = true →
        (sendLoop oracle retries fuel attempt).result = ⟨true, none, false⟩) ∧
      ((sendLoop oracle retries fuel attempt).result.success = false →
        ∃ e, (sendLoop oracle retries fuel attempt).result.error = some e) := by
  intro fuel
  induction fuel with
  | zero => intro attempt; simp [sendLoop]
  | succ n ih =>
    intro attempt
    simp only [sendLoop]
    cases oracle attempt with
    | ok => simp
    | rejected d => simp
    | exn m isNet =>
      by_cases h1 : (isNet && decide (attempt < retries)) = true
      · simpa [h1] using ih (attempt + 1)
      · by_cases h2 : (attempt == retries) = true
        · simp [h1, h2]
        · simpa [h1, h2] using ih (attempt + 1)

theorem removeTagsGo_id : ∀ (fuel : Nat) (l : List Char), '<' ∉ l →
    removeTagsGo fuel l = l := by
  intro fuel
  induction fuel with
  | zero => intro l _; rfl
  | succ n ih =>
    intro l h
    cases l with
    | nil => rfl
    | cons c rest =>
      have hc : ¬ (c == '<') = true := by
        simp only [beq_iff_eq]
        intro hcc; exact h (hcc ▸ List.mem_cons_self c rest)
      simp [removeTagsGo, hc, ih rest fun hin => h (List.mem_cons_of_mem c hin)]

theorem removeAllCIGo_id (p0 : Char) (pat : List Char) :
    ∀ (fuel : Nat) (l : List Char), noOccurCI p0 pat l = true →
      removeAllCIGo p0 pat fuel l = l := by
  intro fuel
  induction fuel with
  | zero => intro l _; rfl
  | succ n ih =>
    intro l h
    cases l with
    | nil => rfl
    | cons c rest =>
      simp only [noOccurCI, Bool.and_eq_true, Option.isNone_iff_eq_none] at h
      simp [removeAllCIGo, h.1, ih rest h.2]

theorem removeHandlersGo_id :
    ∀ (fuel : Nat) (l : List Char), noHandlerOccur l = true →
      removeHandlersGo fuel l = l := by
  intro fuel
  induction fuel with
  | zero => intro l _; rfl
  | succ n ih =>
    intro l h
    cases l with
    | nil => rfl
    | cons c rest =>
      simp only [noHandlerOccur, Bool.and_eq_true, Option.isNone_iff_eq_none] at h
      simp [removeHandlersGo, h.1, ih rest h.2]

/-- C5 (counterexample): the sanitizer is not idempotent.  Removing the
occurrences of `javascript:` from `javajavascript:script:` reassembles the
string `javascript:` (the global replace does not rescan), which a second
sanitization pass then removes. -/
theorem sanitizeInput_not_idempotent :
    sanitizeInput (sanitizeInput "javajavascript:script:") ≠
      sanitizeInput "javajavascript:script:" := by decide

/-- C5 (amended): the sanitizer is the identity — hence idempotent — on
every string that is already in sanitized normal form: trimmed, at most
1000 characters, and free of the dangerous characters, of case-insensitive
`javascript:` and `data:` substrings and of `on<word>=` patterns.  On
other inputs a second application can differ, because a removal can
reassemble a banned substring (see the counterexample). -/
theorem sanitizeInput_fixpoint (t : String)
    (h1 : jsTrim t.data = t.data)
    (h2 : t.data.length ≤ 1000)
    (h3 : ∀ c ∈ t.data, dangerousChar c = false)
    (h4 : noOccurCI 'j' jsTail t.data = true)
    (h5 : noHandlerOccur t.data = true)
    (h6 : noOccurCI 'd' dataTail t.data = true) :
    sanitizeInput t = t ∧ sanitizeInput (sanitizeInput t) = sanitizeInput t := by
  have hlt : '<' ∉ t.data := by
    intro hin
    exact absurd (h3 '<' hin) (by decide)
  have hfix : sanitizeInput t = t := by
    by_cases ht : t = ""
    · simp [sanitizeInput, ht]
    · have htb : (t == "") = false := by simpa using ht
      have hTags : removeTags t.data = t.data := removeTagsGo_id t.data.length t.data hlt
      have hFilter : t.data.filter (fun c => !dangerousChar c) = t.data :=
        List.filter_eq_self.mpr fun c hc => by simp [h3 c hc]
      have hJS : removeJS t.data = t.data := removeAllCIGo_id 'j' jsTail t.data.length t.data h4
      have hHandlers : removeHandlers t.data = t.data :=
        removeHandlersGo_id t.data.length t.data h5
      have hData : removeData t.data = t.data :=
        removeAllCIGo_id 'd' dataTail t.data.length t.data h6
      simp only [sanitizeInput, htb, Bool.false_eq_true, if_false,
        h1, List.take_of_length_le h2, hTags, hFilter, hJS, hHandlers, hData]
  exact ⟨hfix, by rw [hfix]; exact hfix⟩

/-- C5 (witness for the amended theorem): a concrete clean string on which
the sanitizer is the identity. -/
theorem sanitizeInput_fixpoint_witness :
    sanitizeInput "hello world" = "hello world" ∧
    sanitizeInput (sanitizeInput "hello world") = sanitizeInput "hello world" :=
  sanitizeInput_fixpoint "hello world" (by decide) (by decide) (by decide) (by decide)
    (by decide) (by decide)

/-- C6 (code-bug evidence): the second spam pattern is
`/(http[s]?:\/\/){2,}/i`, which only matches when the scheme tokens are
immediately consecutive, although the source comments it as catching
multiple URLs.  A message containing two separate URLs is therefore not
classified as spam, while back-to-back scheme tokens are. -/
theorem isSpam_two_urls_not_flagged :
    isSpam "Links" "" "visit http://a.com and http://b.com" = false ∧
    isSpam "Links" "" "visit http://https://x" = true := by decide

/-- C3 (counterexample): a retry also happens after a failure that is NOT
network-classified (for example a JSON parse error thrown by
`response.json()`): the `catch` block neither returns nor sleeps in that
case, so the loop proceeds immediately to the next attempt. -/
def nonNetworkThenOk : Nat → AttemptOutcome :=
  fun a => if a = 1 then .exn "Unexpected token in JSON" false else .ok

/-- C3 (counterexample): with a non-network-classified error on the first
attempt, a second attempt is made and succeeds, with no backoff delay —
refuting that the notifier retries only after a network-class failure and
always sleeps between attempts. -/
theorem sendToTelegram_retries_non_network :
    nonNetworkThenOk 1 = .exn "Unexpected token in JSON" false ∧
    (sendToTelegram nonNetworkThenOk 3).attemptsMade = 2 ∧
    (sendToTelegram nonNetworkThenOk 3).delays = [] ∧
    (sendToTelegram nonNetworkThenOk 3).result = ⟨true, none, false⟩ := by decide

/-- C3 (amended): the notifier makes at most 3 attempts; an
application-level rejection (`ok:false`) returns a failure immediately with
no further attempts and no delay; a network-classified error on a
non-final attempt sleeps `2^(attempt-1)` seconds and retries; a
non-network-classified error on a non-final attempt retries immediately
with no delay; any error on the final attempt yields a failure labelled as
a network error. -/
theorem sendToTelegram_retry_policy (oracle : Nat → AttemptOutcome) :
    (sendToTelegram oracle 3).attemptsMade ≤ 3 ∧
    (∀ a d, 1 ≤ a → a ≤ 3 → oracle a = .rejected d →
      sendLoop oracle 3 (4 - a) a = ⟨⟨false, some d, false⟩, 1, []⟩) ∧
    (∀ a m, 1 ≤ a → a < 3 → oracle a = .exn m true →
      sendLoop oracle 3 (4 - a) a =
        ⟨(sendLoop oracle 3 (3 - a) (a + 1)).result,
         (sendLoop oracle 3 (3 - a) (a + 1)).attemptsMade + 1,
         2 ^ (a - 1) * 1000 :: (sendLoop oracle 3 (3 - a) (a + 1)).delays⟩) ∧
    (∀ a m, 1 ≤ a → a < 3 → oracle a = .exn m false →
      sendLoop oracle 3 (4 - a) a =
        ⟨(sendLoop oracle 3 (3 - a) (a + 1)).result,
         (sendLoop oracle 3 (3 - a) (a + 1)).attemptsMade + 1,
         (sendLoop oracle 3 (3 - a) (a + 1)).delays⟩) ∧
    (∀ m isNet, oracle 3 = .exn m isNet →
      sendLoop oracle 3 1 3 =
        ⟨⟨false, some ("Network error after 3 attempts: " ++ m), true⟩, 1, []⟩) := by
  refine ⟨sendLoop_attempts_le oracle 3 3 1, ?_, ?_, ?_, ?_⟩
  · intro a d h1 h3 hor
    interval_cases a <;> simp [sendLoop, hor]
  · intro a m h1 h3 hor
    interval_cases a <;> simp [sendLoop, hor]
  · intro a m h1 h3 hor
    interval_cases a <;> simp [sendLoop, hor]
  · intro m isNet hor
    simp [sendLoop, hor]
    congr 1

/-- C3 (witness for the amended theorem): an application-level rejection on
the first attempt returns immediately: one attempt, no delays. -/
theorem sendToTelegram_retry_policy_witness :
    sendLoop (fun _ => AttemptOutcome.rejected "bad chat") 3 3 1 =
      ⟨⟨false, some "bad chat", false⟩, 1, []⟩ :=
  (sendToTelegram_retry_policy (fun _ => AttemptOutcome.rejected "bad chat")).2.1 1 "bad chat"
    (by decide) (by decide) rfl

/-- C7: the notifier is a total function of the attempt outcomes (every
thrown error is caught inside the loop), and the returned object always
carries its failure information: a success result is exactly
`{success:true}` (error and network flag at their absent/falsy defaults),
and every failure result carries a non-null error string. -/
theorem sendToTelegram_never_throws (oracle : Nat → AttemptOutcome) (retries : Nat) :
    ((sendToTelegram oracle retries).result.success = true →
      (sendToTelegram oracle retries).result = ⟨true, none, false⟩) ∧
    ((sendToTelegram oracle retries).result.success = false →
      ∃ e, (sendToTelegram oracle retries).result.error = some e) :=
  sendLoop_result_shape oracle retries retries 1

/-- C7 (witness): on a concrete rejected delivery the failure result
carries an error string. -/
theorem sendToTelegram_never_throws_witness :
    ∃ e, (sendToTelegram (fun _ => AttemptOutcome.rejected "chat not found") 3).result.error
        = some e :=
  (sendToTelegram_never_throws (fun _ => AttemptOutcome.rejected "chat not found") 3).2
    (by decide)

/-- C1: once a submission passes validation and the spam check (so the
record is written), the response is 201 `success:true` with no error, for
every possible notification outcome (the oracle is universally
quantified); the notification outcome surfaces only as the advisory
`telegramNotified` field, which mirrors the success flag of the handler's
delivery result; and the store has gained exactly one record. -/
theorem contact_stored_always_success (env : ContactEnv) (body : ContactRequest)
    (store : FileContent)
    (hname : sanitizeInput body.name ≠ "")
    (hemail : sanitizeInput body.email ≠ "")
    (hmsg : sanitizeInput body.message ≠ "")
    (hnlo : ¬ (sanitizeInput body.name).length < 2)
    (hnhi : ¬ (sanitizeInput body.name).length > 100)
    (hmlo : ¬ (sanitizeInput body.message).length < 10)
    (hmhi : ¬ (sanitizeInput body.message).length > 1000)
    (hvalid : isValidEmail (sanitizeInput body.email) = true)
    (hspam : isSpam (sanitizeInput body.name) (sanitizeInput body.subject)
        (sanitizeInput body.message) = false) :
    (contactHandler env body store).response.status = 201 ∧
    (contactHandler env body store).response.success = true ∧
    (contactHandler env body store).response.error = none ∧
    (∃ r, (contactHandler env body store).telegramResult = some r ∧
      (contactHandler env body store).response.telegramNotified = some r.success) ∧
    (readMessages (contactHandler env body store).store).length
      = (readMessages store).length + 1 := by
  have h1 : ¬ (sanitizeInput body.name = "" ∨ sanitizeInput body.email = "" ∨
      sanitizeInput body.message = "") := by
    simp only [not_or]; exact ⟨hname, hemail, hmsg⟩
  have h2 : ¬ ((sanitizeInput body.name).length < 2 ∨
      (sanitizeInput body.name).length > 100) := by
    simp only [not_or]; exact ⟨hnlo, hnhi⟩
  have h3 : ¬ ((sanitizeInput body.message).length < 10 ∨
      (sanitizeInput body.message).length > 1000) := by
    simp only [not_or]; exact ⟨hmlo, hmhi⟩
  have h4 : ¬ isValidEmail (sanitizeInput body.email) = false := by simp [hvalid]
  have h5 : ¬ isSpam (sanitizeInput body.name) (sanitizeInput body.subject)
      (sanitizeInput body.message) = true := by simp [hspam]
  simp only [contactHandler]
  rw [if_neg h1, if_neg h2, if_neg h3, if_neg h4, if_neg h5]
  by_cases hc : telegramConfigured env.cfg = true
  · rw [if_pos hc]
    refine ⟨rfl, rfl, rfl, ⟨(sendToTelegram env.oracle 3).result, rfl, rfl⟩, ?_⟩
    split
    · simp [readMessages, updateAt_length]
    · simp [readMessages]
  · rw [if_neg hc]
    exact ⟨rfl, rfl, rfl, ⟨⟨false, some "Not configured", false⟩, rfl, rfl⟩,
      by simp [readMessages]⟩

/-- Fixed environment for the witnesses: configured credentials and an
oracle whose first attempt succeeds. -/
def env0 : ContactEnv :=
  ⟨⟨"123:ABC", "42"⟩, fun _ => AttemptOutcome.ok, 1700000000000,
    "2023-11-14T22:13:20.000Z", "127.0.0.1"⟩

/-- C1 (witness): a concrete valid, non-spam submission against an empty
store. -/
theorem contact_stored_always_success_witness :
    (contactHandler env0 ⟨"John Doe", "a@b.co", "Hello", "Hello there my friend."⟩
        (.readable [])).response.status = 201 ∧
    (contactHandler env0 ⟨"John Doe", "a@b.co", "Hello", "Hello there my friend."⟩
        (.readable [])).response.success = true ∧
    (contactHandler env0 ⟨"John Doe", "a@b.co", "Hello", "Hello there my friend."⟩
        (.readable [])).response.error = none ∧
    (∃ r, (contactHandler env0 ⟨"John Doe", "a@b.co", "Hello", "Hello there my friend."⟩
        (.readable [])).telegramResult = some r ∧
      (contactHandler env0 ⟨"John Doe", "a@b.co", "Hello", "Hello there my friend."⟩
        (.readable [])).response.telegramNotified = some r.success) ∧
    (readMessages (contactHandler env0 ⟨"John Doe", "a@b.co", "Hello",
        "Hello there my friend."⟩ (.readable [])).store).length
      = (readMessages (.readable [])).length + 1 :=
  contact_stored_always_success env0 ⟨"John Doe", "a@b.co", "Hello", "Hello there my friend."⟩
    (.readable []) (by decide) (by decide) (by decide) (by decide) (by decide) (by decide)
    (by decide) (by decide) (by decide)

/-- C2: a submission that passes validation but is classified as spam gets
the deceptive 201 `success:true` response (with no `telegramNotified`
field), and the handler returns before any store access: the file state is
returned untouched, the notifier is not invoked, and the delivery-result
variable never comes into existence. -/
theorem contact_spam_silent_drop (env : ContactEnv) (body : ContactRequest)
    (store : FileContent)
    (hname : sanitizeInput body.name ≠ "")
    (hemail : sanitizeInput body.email ≠ "")
    (hmsg : sanitizeInput body.message ≠ "")
    (hnlo : ¬ (sanitizeInput body.name).length < 2)
    (hnhi : ¬ (sanitizeInput body.name).length > 100)
    (hmlo : ¬ (sanitizeInput body.message).length < 10)
    (hmhi : ¬ (sanitizeInput body.message).length > 1000)
    (hvalid : isValidEmail (sanitizeInput body.email) = true)
    (hspam : isSpam (sanitizeInput body.name) (sanitizeInput body.subject)
        (sanitizeInput body.message) = true) :
    contactHandler env body store =
      ⟨⟨201, true, some "Thank you! Your message has been received.", none, none⟩,
        store, false, none⟩ := by
  have h1 : ¬ (sanitizeInput body.name = "" ∨ sanitizeInput body.email = "" ∨
      sanitizeInput body.message = "") := by
    simp only [not_or]; exact ⟨hname, hemail, hmsg⟩
  have h2 : ¬ ((sanitizeInput body.name).length < 2 ∨
      (sanitizeInput body.name).length > 100) := by
    simp only [not_or]; exact ⟨hnlo, hnhi⟩
  have h3 : ¬ ((sanitizeInput body.message).length < 10 ∨
      (sanitizeInput body.message).length > 1000) := by
    simp only [not_or]; exact ⟨hmlo, hmhi⟩
  have h4 : ¬ isValidEmail (sanitizeInput body.email) = false := by simp [hvalid]
  simp only [contactHandler]
  rw [if_neg h1, if_neg h2, if_neg h3, if_neg h4, if_pos hspam]

/-- C2 (witness): a concrete spam submission (blacklisted phrase `buy now`)
leaves a concrete non-empty store untouched. -/
theorem contact_spam_silent_drop_witness :
    contactHandler env0 ⟨"John Doe", "a@b.co", "", "please buy now today"⟩
        (.readable []) =
      ⟨⟨201, true, some "Thank you! Your message has been received.", none, none⟩,
        .readable [], false, none⟩ :=
  contact_spam_silent_drop env0 ⟨"John Doe", "a@b.co", "", "please buy now today"⟩
    (.readable []) (by decide) (by decide) (by decide) (by decide) (by decide) (by decide)
    (by decide) (by decide) (by decide)

/-- Exhaustive case analysis of the error field of a contact response: it
is absent, or one of the four validation messages, and the two
length-validation messages occur only when the corresponding length check
actually failed. -/
theorem contact_response_error_cases (env : ContactEnv) (body : ContactRequest)
    (store : FileContent) :
    (contactHandler env body store).response.error = none ∨
    (contactHandler env body store).response.error =
      some "Name, email, and message are required." ∨
    ((contactHandler env body store).response.error =
        some "Name must be between 2 and 100 characters." ∧
      ((sanitizeInput body.name).length < 2 ∨ (sanitizeInput body.name).length > 100)) ∨
    ((contactHandler env body store).response.error =
        some "Message must be between 10 and 1000 characters." ∧
      ((sanitizeInput body.message).length < 10 ∨
        (sanitizeInput body.message).length > 1000)) ∨
    (contactHandler env body store).response.error =
      some "Please provide a valid email address." := by
  simp only [contactHandler]
  split
  · exact Or.inr (Or.inl rfl)
  · split
    · next h => exact Or.inr (Or.inr (Or.inl ⟨rfl, h⟩))
    · split
      · next h => exact Or.inr (Or.inr (Or.inr (Or.inl ⟨rfl, h⟩)))
      · split
        · exact Or.inr (Or.inr (Or.inr (Or.inr rfl)))
        · split
          · exact Or.inl rfl
          · split
            · exact Or.inl rfl
            · exact Or.inl rfl

/-- C4: after sanitization, a name of length 1 or 101 is rejected with the
name-length message (400, no store write, no notification), while a name
of length 2 or 100 never produces that rejection; a message of length 9 or
1001 is rejected with the message-length message (400, no store write, no
notification), while a message of length 10 or 1000 never produces that
rejection.  The rejecting parts assume the other fields are non-empty (and
for the message check, that the name check passed), since an earlier
failing check wins. -/
theorem contact_length_boundaries (env : ContactEnv) (body : ContactRequest)
    (store : FileContent) :
    ((sanitizeInput body.name).length = 1 → sanitizeInput body.email ≠ "" →
      sanitizeInput body.message ≠ "" →
      contactHandler env body store =
        ⟨⟨400, false, none, some "Name must be between 2 and 100 characters.", none⟩,
          store, false, none⟩) ∧
    ((sanitizeInput body.name).length = 101 → sanitizeInput body.email ≠ "" →
      sanitizeInput body.message ≠ "" →
      contactHandler env body store =
        ⟨⟨400, false, none, some "Name must be between 2 and 100 characters.", none⟩,
          store, false, none⟩) ∧
    ((sanitizeInput body.name).length = 2 →
      (contactHandler env body store).response.error ≠
        some "Name must be between 2 and 100 characters.") ∧
    ((sanitizeInput body.name).length = 100 →
      (contactHandler env body store).response.error ≠
        some "Name must be between 2 and 100 characters.") ∧
    ((sanitizeInput body.message).length = 9 → sanitizeInput body.email ≠ "" →
      2 ≤ (sanitizeInput body.name).length → (sanitizeInput body.name).length ≤ 100 →
      contactHandler env body store =
        ⟨⟨400, false, none, some "Message must be between 10 and 1000 characters.", none⟩,
          store, false, none⟩) ∧
    ((sanitizeInput body.message).length = 1001 → sanitizeInput body.email ≠ "" →
      2 ≤ (sanitizeInput body.name).length → (sanitizeInput body.name).length ≤ 100 →
      contactHandler env body store =
        ⟨⟨400, false, none, some "Message must be between 10 and 1000 characters.", none⟩,
          store, false, none⟩) ∧
    ((sanitizeInput body.message).length = 10 →
      (contactHandler env body store).response.error ≠
        some "Message must be between 10 and 1000 characters.") ∧
    ((sanitizeInput body.message).length = 1000 →
      (contactHandler env body store).response.error ≠
        some "Message must be between 10 and 1000 characters.") := by
  have hnameOf : ∀ n : Nat, (sanitizeInput body.name).length = n → n ≠ 0 →
      sanitizeInput body.name ≠ "" := by
    intro n hn hnz he
    rw [he] at hn
    simp [String.length] at hn
    omega
  have hmsgOf : ∀ n : Nat, (sanitizeInput body.message).length = n → n ≠ 0 →
      sanitizeInput body.message ≠ "" := by
    intro n hn hnz he
    rw [he] at hn
    simp [String.length] at hn
    omega
  refine ⟨?_, ?_, ?_, ?_, ?_, ?_, ?_, ?_⟩
  · intro hlen hemail hmsg
    have h1 : ¬ (sanitizeInput body.name = "" ∨ sanitizeInput body.email = "" ∨
        sanitizeInput body.message = "") := by
      simp only [not_or]; exact ⟨hnameOf 1 hlen (by omega), hemail, hmsg⟩
    have h2 : (sanitizeInput body.name).length < 2 ∨
        (sanitizeInput body.name).length > 100 := by omega
    simp only [contactHandler]
    rw [if_neg h1, if_pos h2]
  · intro hlen hemail hmsg
    have h1 : ¬ (sanitizeInput body.name = "" ∨ sanitizeInput body.email = "" ∨
        sanitizeInput body.message = "") := by
      simp only [not_or]; exact ⟨hnameOf 101 hlen (by omega), hemail, hmsg⟩
    have h2 : (sanitizeInput body.name).length < 2 ∨
        (sanitizeInput body.name).length > 100 := by omega
    simp only [contactHandler]
    rw [if_neg h1, if_pos h2]
  · intro hlen
    rcases contact_response_error_cases env body store with h | h | ⟨h, hb⟩ | ⟨h, _⟩ | h <;>
      rw [h]
    · decide
    · decide
    · omega
    · decide
    · decide
  · intro hlen
    rcases contact_response_error_cases env body store with h | h | ⟨h, hb⟩ | ⟨h, _⟩ | h <;>
      rw [h]
    · decide
    · decide
    · omega
    · decide
    · decide
  · intro hlen hemail hnlo hnhi
    have h1 : ¬ (sanitizeInput body.name = "" ∨ sanitizeInput body.email = "" ∨
        sanitizeInput body.message = "") := by
      simp only [not_or]
      refine ⟨?_, hemail, hmsgOf 9 hlen (by omega)⟩
      intro he
      rw [he] at hnlo
      simp [String.length] at hnlo
    have h2 : ¬ ((sanitizeInput body.name).length < 2 ∨
        (sanitizeInput body.name).length > 100) := by omega
    have h3 : (sanitizeInput body.message).length < 10 ∨
        (sanitizeInput body.message).length > 1000 := by omega
    simp only [contactHandler]
    rw [if_neg h1, if_neg h2, if_pos h3]
  · intro hlen hemail hnlo hnhi
    have h1 : ¬ (sanitizeInput body.name = "" ∨ sanitizeInput body.email = "" ∨
        sanitizeInput body.message = "") := by
      simp only [not_or]
      refine ⟨?_, hemail, hmsgOf 1001 hlen (by omega)⟩
      intro he
      rw [he] at hnlo
      simp [String.length] at hnlo
    have h2 : ¬ ((sanitizeInput body.name).length < 2 ∨
        (sanitizeInput body.name).length > 100) := by omega
    have h3 : (sanitizeInput body.message).length < 10 ∨
        (sanitizeInput body.message).length > 1000 := by omega
    simp only [contactHandler]
    rw [if_neg h1, if_neg h2, if_pos h3]
  · intro hlen
    rcases contact_response_error_cases env body store with h | h | ⟨h, _⟩ | ⟨h, hb⟩ | h <;>
      rw [h]
    · decide
    · decide
    · decide
    · omega
    · decide
  · intro hlen
    rcases contact_response_error_cases env body store with h | h | ⟨h, _⟩ | ⟨h, hb⟩ | h <;>
      rw [h]
    · decide
    · decide
    · decide
    · omega
    · decide

/-- C4 (witness): concrete boundary submissions — name of length 1
rejected, name of length 2 not name-rejected, message of length 9
rejected, message of length 10 not message-rejected. -/
theorem contact_length_boundaries_witness :
    contactHandler env0 ⟨"J", "a@b.co", "", "a valid message here"⟩ (.readable []) =
      ⟨⟨400, false, none, some "Name must be between 2 and 100 characters.", none⟩,
        .readable [], false, none⟩ ∧
    (contactHandler env0 ⟨"Jo", "a@b.co", "", "a valid message here"⟩
        (.readable [])).response.error ≠
      some "Name must be between 2 and 100 characters." ∧
    contactHandler env0 ⟨"John", "a@b.co", "", "nine char"⟩ (.readable []) =
      ⟨⟨400, false, none, some "Message must be between 10 and 1000 characters.", none⟩,
        .readable [], false, none⟩ ∧
    (contactHandler env0 ⟨"John", "a@b.co", "", "just ten c"⟩
        (.readable [])).response.error ≠
      some "Message must be between 10 and 1000 characters." :=
  ⟨(contact_length_boundaries env0 ⟨"J", "a@b.co", "", "a valid message here"⟩
      (.readable [])).1 (by decide) (by decide) (by decide),
   (contact_length_boundaries env0 ⟨"Jo", "a@b.co", "", "a valid message here"⟩
      (.readable [])).2.2.1 (by decide),
   (contact_length_boundaries env0 ⟨"John", "a@b.co", "", "nine char"⟩
      (.readable [])).2.2.2.2.1 (by decide) (by decide) (by decide) (by decide),
   (contact_length_boundaries env0 ⟨"John", "a@b.co", "", "just ten c"⟩
      (.readable [])).2.2.2.2.2.2.1 (by decide)⟩

/-- C8: when either credential still holds its placeholder, a submission
that reaches the notification step never invokes the notifier and records
the "Not configured" failure as its delivery result (surfacing
`telegramNotified:false`), and the resend endpoint, given an id that is
found, refuses with a 400 "Telegram bot not configured" error, leaving the
store untouched and the notifier uninvoked. -/
theorem not_configured_skips_notifier :
    (∀ (env : ContactEnv) (body : ContactRequest) (store : FileContent),
      (env.cfg.botToken = botTokenSentinel ∨ env.cfg.chatId = chatIdSentinel) →
      sanitizeInput body.name ≠ "" → sanitizeInput body.email ≠ "" →
      sanitizeInput body.message ≠ "" →
      ¬ (sanitizeInput body.name).length < 2 → ¬ (sanitizeInput body.name).length > 100 →
      ¬ (sanitizeInput body.message).length < 10 →
      ¬ (sanitizeInput body.message).length > 1000 →
      isValidEmail (sanitizeInput body.email) = true →
      isSpam (sanitizeInput body.name) (sanitizeInput body.subject)
        (sanitizeInput body.message) = false →
      (contactHandler env body store).notifierInvoked = false ∧
      (contactHandler env body store).telegramResult =
        some ⟨false, some "Not configured", false⟩ ∧
      (contactHandler env body store).response.telegramNotified = some false) ∧
    (∀ (cfg : TelegramConfig) (oracle : Nat → AttemptOutcome) (nowISO : String)
        (idParam : Option Int) (store : FileContent),
      (cfg.botToken = botTokenSentinel ∨ cfg.chatId = chatIdSentinel) →
      (∃ m ∈ readMessages store, idMatches idParam m.id = true) →
      resendHandler cfg oracle nowISO idParam store =
        ⟨400, false, some "Telegram bot not configured", none, store, false⟩) := by
  constructor
  · intro env body store hcfg hname hemail hmsg hnlo hnhi hmlo hmhi hvalid hspam
    have h1 : ¬ (sanitizeInput body.name = "" ∨ sanitizeInput body.email = "" ∨
        sanitizeInput body.message = "") := by
      simp only [not_or]; exact ⟨hname, hemail, hmsg⟩
    have h2 : ¬ ((sanitizeInput body.name).length < 2 ∨
        (sanitizeInput body.name).length > 100) := by
      simp only [not_or]; exact ⟨hnlo, hnhi⟩
    have h3 : ¬ ((sanitizeInput body.message).length < 10 ∨
        (sanitizeInput body.message).length > 1000) := by
      simp only [not_or]; exact ⟨hmlo, hmhi⟩
    have h4 : ¬ isValidEmail (sanitizeInput body.email) = false := by simp [hvalid]
    have h5 : ¬ isSpam (sanitizeInput body.name) (sanitizeInput body.subject)
        (sanitizeInput body.message) = true := by simp [hspam]
    have hc : ¬ telegramConfigured env.cfg = true := by
      rcases hcfg with h | h <;> simp [telegramConfigured, h]
    simp only [contactHandler]
    rw [if_neg h1, if_neg h2, if_neg h3, if_neg h4, if_neg h5, if_neg hc]
    exact ⟨rfl, rfl, rfl⟩
  · intro cfg oracle nowISO idParam store hcfg hfound
    have hsome : (findIndex (fun m => idMatches idParam m.id)
        (readMessages store)).isSome = true := findIndex_isSome hfound
    rcases Option.isSome_iff_exists.mp hsome with ⟨i, hi⟩
    simp only [resendHandler, hi]
    rw [if_pos hcfg]

/-- A concrete stored record for the witnesses. -/
def msg0 : Message :=
  ⟨5, "John", "a@b.co", "Hi", "hello there ok", "2023-01-01T00:00:00.000Z",
    "127.0.0.1", false, false, none, none⟩

/-- C8 (witness): with the bot token at its placeholder, a concrete valid
submission skips the notifier, and a concrete resend of a found id is
refused. -/
theorem not_configured_skips_notifier_witness :
    (contactHandler ⟨⟨botTokenSentinel, "42"⟩, fun _ => AttemptOutcome.ok, 1, "t", "ip"⟩
        ⟨"John Doe", "a@b.co", "", "Hello there my friend."⟩
        (.readable [])).notifierInvoked = false ∧
    (contactHandler ⟨⟨botTokenSentinel, "42"⟩, fun _ => AttemptOutcome.ok, 1, "t", "ip"⟩
        ⟨"John Doe", "a@b.co", "", "Hello there my friend."⟩
        (.readable [])).telegramResult = some ⟨false, some "Not configured", false⟩ ∧
    resendHandler ⟨botTokenSentinel, "42"⟩ (fun _ => AttemptOutcome.ok) "t" (some 5)
        (.readable [msg0]) =
      ⟨400, false, some "Telegram bot not configured", none, .readable [msg0], false⟩ :=
  ⟨((not_configured_skips_notifier).1
      ⟨⟨botTokenSentinel, "42"⟩, fun _ => AttemptOutcome.ok, 1, "t", "ip"⟩
      ⟨"John Doe", "a@b.co", "", "Hello there my friend."⟩ (.readable [])
      (Or.inl rfl) (by decide) (by decide) (by decide) (by decide) (by decide) (by decide)
      (by decide) (by decide) (by decide)).1,
   ((not_configured_skips_notifier).1
      ⟨⟨botTokenSentinel, "42"⟩, fun _ => AttemptOutcome.ok, 1, "t", "ip"⟩
      ⟨"John Doe", "a@b.co", "", "Hello there my friend."⟩ (.readable [])
      (Or.inl rfl) (by decide) (by decide) (by decide) (by decide) (by decide) (by decide)
      (by decide) (by decide) (by decide)).2.1,
   (not_configured_skips_notifier).2 ⟨botTokenSentinel, "42"⟩ (fun _ => AttemptOutcome.ok)
      "t" (some 5) (.readable [msg0]) (Or.inl rfl) ⟨msg0, by decide, by decide⟩⟩

/-- C9: an unreadable or unparsable messages file behaves exactly like an
empty collection in every operation that reads the store: the raw read
returns the empty array, list and get are unchanged, and delete, resend
and the submission handler produce the same responses, notifier behaviour
and resulting collection contents as they would over an empty readable
store (failing lookups leave the file untouched rather than erroring). -/
theorem unreadable_store_acts_empty :
    readMessages .unreadable = readMessages (.readable []) ∧
    (∀ idParam, getHandler idParam .unreadable = getHandler idParam (.readable [])) ∧
    listHandler .unreadable = listHandler (.readable []) ∧
    (∀ idParam,
      (deleteHandler idParam .unreadable).status =
        (deleteHandler idParam (.readable [])).status ∧
      (deleteHandler idParam .unreadable).success =
        (deleteHandler idParam (.readable [])).success ∧
      (deleteHandler idParam .unreadable).error =
        (deleteHandler idParam (.readable [])).error ∧
      readMessages (deleteHandler idParam .unreadable).store =
        readMessages (deleteHandler idParam (.readable [])).store) ∧
    (∀ cfg oracle nowISO idParam,
      (resendHandler cfg oracle nowISO idParam .unreadable).status =
        (resendHandler cfg oracle nowISO idParam (.readable [])).status ∧
      (resendHandler cfg oracle nowISO idParam .unreadable).success =
        (resendHandler cfg oracle nowISO idParam (.readable [])).success ∧
      (resendHandler cfg oracle nowISO idParam .unreadable).error =
        (resendHandler cfg oracle nowISO idParam (.readable [])).error ∧
      (resendHandler cfg oracle nowISO idParam .unreadable).notifierInvoked =
        (resendHandler cfg oracle nowISO idParam (.readable [])).notifierInvoked ∧
      readMessages (resendHandler cfg oracle nowISO idParam .unreadable).store =
        readMessages (resendHandler cfg oracle nowISO idParam (.readable [])).store) ∧
    (∀ env body,
      (contactHandler env body .unreadable).response =
        (contactHandler env body (.readable [])).response ∧
      (contactHandler env body .unreadable).notifierInvoked =
        (contactHandler env body (.readable [])).notifierInvoked ∧
      (contactHandler env body .unreadable).telegramResult =
        (contactHandler env body (.readable [])).telegramResult ∧
      readMessages (contactHandler env body .unreadable).store =
        readMessages (contactHandler env body (.readable [])).store) := by
  refine ⟨rfl, fun idParam => rfl, rfl, fun idParam => ⟨rfl, rfl, rfl, rfl⟩,
    fun cfg oracle nowISO idParam => ⟨rfl, rfl, rfl, rfl, rfl⟩, ?_⟩
  intro env body
  by_cases h1 : (sanitizeInput body.name = "" ∨ sanitizeInput body.email = "" ∨
      sanitizeInput body.message = "")
  · simp [contactHandler, readMessages, h1]
  by_cases h2 : ((sanitizeInput body.name).length < 2 ∨
      (sanitizeInput body.name).length > 100)
  · simp [contactHandler, readMessages, h1, h2]
  by_cases h3 : ((sanitizeInput body.message).length < 10 ∨
      (sanitizeInput body.message).length > 1000)
  · simp [contactHandler, readMessages, h1, h2, h3]
  by_cases h4 : isValidEmail (sanitizeInput body.email) = false
  · simp [contactHandler, readMessages, h1, h2, h3, h4]
  by_cases h5 : isSpam (sanitizeInput body.name) (sanitizeInput body.subject)
      (sanitizeInput body.message) = true
  · simp [contactHandler, readMessages, h1, h2, h3, h4, h5]
  · simp [contactHandler, readMessages, h1, h2, h3, h4, h5]

/-- C10: an id parameter whose parse (possibly NaN) matches no stored
record makes get, delete and resend answer 404 "Message not found", with
the store unchanged and the notifier never invoked. -/
theorem unknown_id_not_found (cfg : TelegramConfig) (oracle : Nat → AttemptOutcome)
    (nowISO : String) (idParam : Option Int) (store : FileContent)
    (h : ∀ m ∈ readMessages store, idMatches idParam m.id = false) :
    getHandler idParam store = ⟨404, false, some "Message not found", none⟩ ∧
    deleteHandler idParam store = ⟨404, false, some "Message not found", none, store⟩ ∧
    resendHandler cfg oracle nowISO idParam store =
      ⟨404, false, some "Message not found", none, store, false⟩ := by
  have hfm : findMsg (fun m => idMatches idParam m.id) (readMessages store) = none :=
    findMsg_eq_none h
  have hfi : findIndex (fun m => idMatches idParam m.id) (readMessages store) = none :=
    findIndex_eq_none h
  exact ⟨by simp [getHandler, hfm], by simp [deleteHandler, hfi],
    by simp [resendHandler, hfi]⟩

/-- C10 (witness): a store holding only id 5, queried with id 7 (and, via
NaN, a non-numeric parameter behaves the same). -/
theorem unknown_id_not_found_witness :
    getHandler (some 7) (.readable [msg0]) =
      ⟨404, false, some "Message not found", none⟩ ∧
    deleteHandler (some 7) (.readable [msg0]) =
      ⟨404, false, some "Message not found", none, .readable [msg0]⟩ ∧
    resendHandler ⟨"123:ABC", "42"⟩ (fun _ => AttemptOutcome.ok) "t" (some 7)
        (.readable [msg0]) =
      ⟨404, false, some "Message not found", none, .readable [msg0], false⟩ :=
  unknown_id_not_found ⟨"123:ABC", "42"⟩ (fun _ => AttemptOutcome.ok) "t" (some 7)
    (.readable [msg0]) (by decide)

end Portfolio
